import Mathlib

/-!
Verification of the risk-scoring service against its specification.

The development shallowly embeds the request pipeline of api/main.py, the four
detector predict functions under ml_models/, the validators of
api/validators.py, the geolocation helpers of utils/geo_utils.py and the
rate-limit logic of api/main.py.

Embedding conventions, used throughout:
* Machine integers and Python ints are modelled as Lean Int; Python float
  arithmetic is idealised as exact arithmetic (Real for the geographic
  helpers).  A Python expression int(e) (truncation toward zero) is modelled
  with Int.tdiv where e is a ratio of integers.
* The learned model inferences (one-class SVM decision value, isolation-forest
  score, autoencoder reconstruction curve, DBSCAN core-sample distance) are
  external numeric computations; each detector outcome is abstracted at the
  exact point where the source converts the model output to a Python int.
  The outcome type of each detector also has notLoaded (the source returns 50
  before touching the model) and err (the catch-all except branch returning
  50), so that every control path of the source predict function is covered.
* Strings are processed on their underlying character lists.  The user-agents
  library parse result is modelled as an explicit record passed as an input.
* The sanitize_input regular-expression scrubbing is abstracted as an
  arbitrary string transformer passed to the pipeline; no claim below depends
  on its behaviour.
-/

/-- max(0, min(100, x)): the clamping applied by the source to every score. -/
def pyClamp (x : ℤ) : ℤ := max 0 (min 100 x)

/-- Truncation toward zero of the ratio n / d, the meaning of Python int()
on an exact nonnegative-denominator ratio. -/
def pyTruncDiv (n d : ℤ) : ℤ := n.tdiv d

/-- Boolean list-prefix test on raw character lists. -/
def isPrefL : List Char → List Char → Bool
  | [], _ => true
  | _ :: _, [] => false
  | a :: as, b :: bs => a = b && isPrefL as bs

/-- Boolean contiguous-substring test (Python str containment) on character
lists: isInfL needle hay. -/
def isInfL (needle : List Char) : List Char → Bool
  | [] => isPrefL needle []
  | c :: t => isPrefL needle (c :: t) || isInfL needle t

/-- Python str.lower restricted to ASCII, on a character list. -/
def lowerL (l : List Char) : List Char := l.map Char.toLower

/-- Python s1 in s2 substring test between a string and a pattern list. -/
def strContains (s : String) (pat : List Char) : Bool := isInfL pat s.data

/-- Python s.startswith(p). -/
def strStarts (s : String) (pat : List Char) : Bool := isPrefL pat s.data

/-- Split a character list at dots, mirroring str.split of ipaddress parsing. -/
def splitDot : List Char → List (List Char)
  | [] => [[]]
  | c :: t =>
    match splitDot t with
    | [] => [[c]]
    | h :: r => if c = '.' then [] :: h :: r else (c :: h) :: r

/-- Numeric value of a decimal digit character. -/
def digitVal (c : Char) : ℕ := c.toNat - '0'.toNat

/-- Decimal value of a digit list. -/
def decValue (l : List Char) : ℕ := l.foldl (fun a c => 10 * a + digitVal c) 0

/-- One dotted-quad octet as the Python ipaddress module accepts it: one to
three decimal digits, value at most 255, no leading zero. -/
def parseOctet (l : List Char) : Option ℕ :=
  if l ≠ [] ∧ l.length ≤ 3 ∧ l.all Char.isDigit ∧
      (l.length = 1 ∨ l.headD '0' ≠ '0') ∧ decValue l ≤ 255 then
    some (decValue l)
  else none

/-- Parsed network address.  IPv4 is parsed fully.  IPv6 textual forms are
recognised only coarsely (hex digits and colons); no claim below depends on
the exact IPv6 grammar, and for every IPv6 address both branches of the
datacenter check of ml_models/ip_model.py yield the same base score 0. -/
inductive IPAddr where
  | v4 (a b c d : ℕ)
  | v6 (raw : String)
deriving DecidableEq

/-- Dotted-quad IPv4 parse. -/
def parseIPv4 (s : String) : Option IPAddr :=
  match splitDot s.data with
  | [p, q, r, t] =>
    match parseOctet p, parseOctet q, parseOctet r, parseOctet t with
    | some a, some b, some c, some d => some (.v4 a b c d)
    | _, _, _, _ => none
  | _ => none

/-- Hexadecimal digit test. -/
def isHexChar (c : Char) : Bool :=
  c.isDigit || ('a' ≤ c && c ≤ 'f') || ('A' ≤ c && c ≤ 'F')

/-- Coarse IPv6 textual recognition. -/
def looksIPv6 (s : String) : Bool :=
  s.data.contains ':' && s.data.all (fun c => isHexChar c || c = ':') &&
    decide (2 ≤ s.data.length)

/-- ipaddress.ip_address: IPv4 first, IPv6 otherwise, failure as none.
validate_ip_address of api/validators.py is exactly the isSome of this. -/
def parseIP (s : String) : Option IPAddr :=
  match parseIPv4 s with
  | some a => some a
  | none => if looksIPv6 s then some (.v6 s) else none

/-- The IPv4 is_private ranges of the Python ipaddress module. -/
def isPrivateV4 (a b c d : ℕ) : Bool :=
  a = 0 || a = 10 || a = 127 || (a = 169 && b = 254) ||
  (a = 172 && 16 ≤ b && b ≤ 31) ||
  (a = 192 && b = 0 && c = 0 && d ≤ 7) ||
  (a = 192 && b = 0 && c = 0 && (d = 170 || d = 171)) ||
  (a = 192 && b = 0 && c = 2) || (a = 192 && b = 168) ||
  (a = 198 && (b = 18 || b = 19)) || (a = 198 && b = 51 && c = 100) ||
  (a = 203 && b = 0 && c = 113) || 240 ≤ a ||
  (a = 255 && b = 255 && c = 255 && d = 255)

/-- IPv6 unique-local textual prefix fc. -/
def v6UlaA : List Char := "fc".data

/-- IPv6 unique-local textual prefix fd. -/
def v6UlaB : List Char := "fd".data

/-- IPv6 link-local textual prefix fe8. -/
def v6LinkLocal : List Char := "fe8".data

/-- IPv6 loopback text. -/
def v6Loopback : List Char := "::1".data

/-- ip_obj.is_private.  The IPv6 case is coarse (unique-local, link-local,
loopback); it is irrelevant to every claim below because the only use of
is_private in a claim-relevant path yields base score 0 for IPv6 either way. -/
def ipIsPrivate : IPAddr → Bool
  | .v4 a b c d => isPrivateV4 a b c d
  | .v6 raw =>
    isPrefL v6UlaA raw.data || isPrefL v6UlaB raw.data ||
    isPrefL v6LinkLocal raw.data || raw.data = v6Loopback

/-- str(ip_obj).split(dot)[0] membership in the list of the datacenter first
octets 104 and 172 used by ml_models/ip_model.py line 154.  For IPv6 the
canonical string contains no dot before the first group, so the first split
component is the whole string, which is never 104 or 172. -/
def ipFirstOctet104or172 : IPAddr → Bool
  | .v4 a _ _ _ => a = 104 || a = 172
  | .v6 _ => false

/-- Login status, the success/failure enumeration of api/models.py. -/
inductive LoginStatus where
  | success
  | failure
deriving DecidableEq

/-- Location record of api/models.py.  Coordinates are exact rationals (the
idealisation of the JSON floats). -/
structure Location where
  country : String
  city : String
  latitude : ℚ
  longitude : ℚ
deriving DecidableEq

/-- LoginHistoryItem of api/models.py. -/
structure LoginHistoryItem where
  ip : String
  userAgent : String
  timestamp : ℤ
  location : Location
  loginStatus : LoginStatus
deriving DecidableEq

/-- CurrentSession of api/models.py, restricted to the fields that the
embedded code paths read.  The remaining optional fingerprint fields feed
only the feature extractors, which are abstracted into the detector
outcomes. -/
structure CurrentSession where
  ip : String
  userAgent : String
  timestamp : ℤ
  touchSupport : Option Bool
deriving DecidableEq

/-- AnalyzeRequest of api/models.py. -/
structure AnalyzeRequest where
  currentSession : CurrentSession
  loginHistory : List LoginHistoryItem
  userId : String
deriving DecidableEq

/-- The dictionary handed to each predict_risk call by analyze_risk: the
sanitized session fields plus the enrichment location returned by
get_location_from_ip. -/
structure ModelInput where
  ip : String
  userAgent : String
  timestamp : ℤ
  touchSupport : Option Bool
  location : Location
deriving DecidableEq

/-- The five response scores of api/models.py (RiskScores). -/
structure RiskScores where
  ip : ℤ
  datetime : ℤ
  userAgent : ℤ
  geolocation : ℤ
  overall : ℤ
deriving DecidableEq

/-- login_history[-10:], the last ten items. -/
def lastTen {α : Type} (l : List α) : List α := l.drop (l.length - 10)

/-- login_history[-6:], the last six items. -/
def lastSix {α : Type} (l : List α) : List α := l.drop (l.length - 6)

/-- max(login_history, key=timestamp): Python max returns the first item of
maximal key, modelled by a left fold that replaces only on strict increase. -/
def lastLoginOf : List LoginHistoryItem → Option LoginHistoryItem
  | [] => none
  | h :: t => some (t.foldl (fun m i => if m.timestamp < i.timestamp then i else m) h)

/-- Outcome of the one-class SVM inference inside IPRiskModel.predict_risk.
In the ok case, riskRaw stands for the Python value int(30 - d*10) when
inlier, and int(70 - d*20) when outlier, with d the decision value; since d
ranges over all floats, riskRaw ranges over all integers and the abstraction
is lossless. -/
inductive SVMOutcome where
  | notLoaded
  | err
  | ok (inlier : Bool) (riskRaw : ℤ)
deriving DecidableEq

/-- self.known_bad_ips of IPRiskModel: initialised empty and never filled. -/
def knownBadIPs : List String := []

/-- IPRiskModel.predict_risk (ml_models/ip_model.py, lines 122-190).
notLoaded is the guard on is_loaded and model, err the outer except branch. -/
def ipPredict (o : SVMOutcome) (input : ModelInput) (hist : List LoginHistoryItem) : ℤ :=
  match o with
  | .notLoaded => 50
  | .err => 50
  | .ok inlier riskRaw =>
    if knownBadIPs.contains input.ip then 90
    else
      let baseScore : ℤ :=
        (parseIP input.ip).elim 50 (fun addr =>
          if ipIsPrivate addr then 0
          else if ipFirstOctet104or172 addr then 70 else 0)
      let riskScore : ℤ :=
        if inlier then max 0 (min 30 riskRaw) else max 31 (min 100 riskRaw)
      let finalScore := max baseScore riskScore
      if hist.isEmpty then finalScore
      else
        let recentIPs :=
          ((lastTen hist).filter
            (fun i => input.timestamp - i.timestamp < 3600000)).map
            (fun i => i.ip)
        if 3 < recentIPs.dedup.length then min 100 (finalScore + 20)
        else finalScore

/-- Outcome of the isolation-forest inference inside
DateTimeRiskModel.predict_risk.  In the ok case, baseRaw stands for the
Python value int(15 - a*15) when the prediction is normal and
int(50 - a*30) when anomalous; a ranges over all floats, so baseRaw ranges
over all integers. -/
inductive IFOutcome where
  | notLoaded
  | err
  | ok (baseRaw : ℤ)
deriving DecidableEq

/-- Hour of day of an epoch-millisecond timestamp.  The source uses
datetime.fromtimestamp (server-local time); the embedding fixes UTC. -/
def pyHour (ts : ℤ) : ℤ := (Int.fdiv ts 3600000) % 24

/-- Number of history logins whose timestamp is strictly within five minutes
before the current timestamp (the source comparison ts - item < 300000 also
counts items with future timestamps, and is transcribed as written). -/
def countRecent5Min (ts : ℤ) (hist : List LoginHistoryItem) : ℕ :=
  hist.countP (fun i => ts - i.timestamp < 300000)

/-- Failures among the last ten history items. -/
def lastTenFailures (hist : List LoginHistoryItem) : ℕ :=
  (lastTen hist).countP (fun i => i.loginStatus = LoginStatus.failure)

/-- Stable insertion of an item into a timestamp-sorted list, placing the new
item after existing items of equal timestamp, as Python sorted does. -/
def insertByTs (x : LoginHistoryItem) : List LoginHistoryItem → List LoginHistoryItem
  | [] => [x]
  | h :: t => if h.timestamp ≤ x.timestamp then h :: insertByTs x t else x :: h :: t

/-- Python sorted(key=timestamp) as a stable insertion sort. -/
def sortByTs (l : List LoginHistoryItem) : List LoginHistoryItem :=
  l.foldl (fun acc x => insertByTs x acc) []

/-- Consecutive timestamp gaps of a history list. -/
def intervalsOf (l : List LoginHistoryItem) : List ℤ :=
  List.zipWith (fun a b => b.timestamp - a.timestamp) l (l.drop 1)

/-- len(set(intervals)) == 1 of the source. -/
def allSameIntervals (l : List ℤ) : Bool := l.dedup.length = 1

/-- The bot-cadence test of DateTimeRiskModel.predict_risk lines 187-195:
more than five items, and the five gaps of the sorted last six are equal. -/
def botCadence (hist : List LoginHistoryItem) : Bool :=
  decide (5 < hist.length) && allSameIntervals (intervalsOf (sortByTs (lastSix hist)))

/-- DateTimeRiskModel.predict_risk (ml_models/datetime_model.py, lines
134-201). -/
def dtPredict (o : IFOutcome) (input : ModelInput) (hist : List LoginHistoryItem) : ℤ :=
  match o with
  | .notLoaded => 50
  | .err => 50
  | .ok baseRaw =>
    let base0 := pyClamp baseRaw
    let base1 :=
      if 2 ≤ pyHour input.timestamp ∧ pyHour input.timestamp ≤ 5 then
        min 100 (base0 + 20)
      else base0
    let base2 :=
      if hist.isEmpty then base1
      else
        let rc := countRecent5Min input.timestamp hist
        let b :=
          if 5 < rc then min 100 (base1 + 30)
          else if 3 < rc then min 100 (base1 + 15)
          else base1
        if 3 < lastTenFailures hist then min 100 (b + 20) else b
    if botCadence hist then min 100 (base2 + 25) else base2

/-- Outcome of the autoencoder inference inside
UserAgentRiskModel.predict_risk.  In the ok case, base stands for the Python
base risk computed from the reconstruction error curve (lines 198-202); it is
clamped immediately by the source, so the integer abstraction is lossless. -/
inductive AEOutcome where
  | notLoaded
  | err
  | ok (base : ℤ)
deriving DecidableEq

/-- Result of user_agents.parse as consumed by the rule layer of
UserAgentRiskModel.predict_risk: the bot flag, the browser family, and the
integer major version (none when int() of the version head raises). -/
structure UAParseResult where
  isBot : Bool
  browserFamily : String
  majorVersion : Option ℤ
deriving DecidableEq

/-- The outdated-browser floor table of UserAgentRiskModel. -/
def outdatedBrowsers : List (String × ℤ) :=
  [("Chrome", 80), ("Firefox", 75), ("Safari", 13), ("Edge", 80)]

/-- Minimal acceptable major version for a browser family, if listed. -/
def outdatedMinFor (fam : String) : Option ℤ :=
  (outdatedBrowsers.find? (fun x => x.1 = fam)).map (fun x => x.2)

/-- The three lowercase headless patterns of line 215. -/
def headlessPats : List (List Char) :=
  ["headless".data, "phantom".data, "selenium".data]

/-- The lowercase puppeteer pattern of line 219. -/
def puppeteerPat : List Char := "puppeteer".data

/-- The mixed-case HeadlessChrome pattern of line 219, exactly as written in
the source, where it is tested against the lowercased agent string. -/
def headlessChromePat : List Char := "HeadlessChrome".data

/-- The mixed-case Windows NT pattern of line 238, exactly as written in the
source, where it is tested against the lowercased agent string. -/
def windowsNTPat : List Char := "Windows NT".data

/-- The Mobile pattern of line 238. -/
def mobilePat : List Char := "Mobile".data

/-- UserAgentRiskModel.predict_risk (ml_models/useragent_model.py, lines
175-253). -/
def uaPredict (o : AEOutcome) (p : UAParseResult) (input : ModelInput)
    (hist : List LoginHistoryItem) : ℤ :=
  match o with
  | .notLoaded => 50
  | .err => 50
  | .ok base =>
    let b0 := pyClamp base
    let uaStr := lowerL input.userAgent.data
    let b1 := if p.isBot then max b0 80 else b0
    let b2 :=
      if headlessPats.any (fun pat => isInfL pat uaStr) then max b1 85 else b1
    let b3 :=
      if isInfL puppeteerPat uaStr || isInfL headlessChromePat uaStr then
        max b2 90
      else b2
    let b4 :=
      p.majorVersion.elim b3 (fun mv =>
        (outdatedMinFor p.browserFamily).elim b3 (fun minv =>
          if mv < minv then min 100 (b3 + 20) else b3))
    let b5 := if uaStr.length < 20 then max b4 75 else b4
    let b6 :=
      if input.touchSupport = some true && isInfL windowsNTPat uaStr &&
          ! isInfL mobilePat uaStr then
        min 100 (b5 + 15)
      else b5
    if hist.isEmpty then b6
    else
      if 5 < ((lastTen hist).map (fun i => i.userAgent)).dedup.length then
        min 100 (b6 + 10)
      else b6

/-- Outcome of the DBSCAN inference inside GeolocationRiskModel.predict_risk.
In the ok case, base stands for the Python base_risk computed from the
minimal core-sample distance (lines 203-213, including the constant 50 used
when no core samples are present); it is clamped immediately by the source,
so the integer abstraction is lossless. -/
inductive DBOutcome where
  | notLoaded
  | err
  | ok (base : ℤ)
deriving DecidableEq

/-- math.radians. -/
noncomputable def radiansR (deg : ℝ) : ℝ := deg * Real.pi / 180

/-- math.atan2, total piecewise definition over the reals. -/
noncomputable def atan2R (y x : ℝ) : ℝ :=
  if 0 < x then Real.arctan (y / x)
  else if x < 0 then
    (if 0 ≤ y then Real.arctan (y / x) + Real.pi
     else Real.arctan (y / x) - Real.pi)
  else
    (if 0 < y then Real.pi / 2 else if y < 0 then -(Real.pi / 2) else 0)

/-- haversine_distance, identical in utils/geo_utils.py lines 33-44 and
ml_models/geolocation_model.py lines 32-43: great-circle distance on a sphere
of radius 6371 km. -/
noncomputable def haversineR (lat1 lon1 lat2 lon2 : ℝ) : ℝ :=
  let p1 := radiansR lat1
  let q1 := radiansR lon1
  let p2 := radiansR lat2
  let q2 := radiansR lon2
  let dlat := p2 - p1
  let dlon := q2 - q1
  let a := Real.sin (dlat / 2) ^ 2 +
    Real.cos p1 * Real.cos p2 * Real.sin (dlon / 2) ^ 2
  let c := 2 * atan2R (Real.sqrt a) (Real.sqrt (1 - a))
  6371 * c

/-- GeolocationRiskModel.calculate_travel_speed (ml_models/geolocation_model.py
lines 45-58): absolute time difference, and the float infinity returned on a
zero difference is modelled as the top element. -/
noncomputable def gmTravelSpeed (loc1 loc2 : Location) (t1 t2 : ℤ) : WithTop ℝ :=
  let distance := haversineR (loc1.latitude : ℝ) (loc1.longitude : ℝ)
    (loc2.latitude : ℝ) (loc2.longitude : ℝ)
  if t2 - t1 = 0 then ⊤
  else ((distance / ((((t2 - t1).natAbs : ℝ)) / 3600000) : ℝ) : WithTop ℝ)

/-- The high-risk country set of GeolocationRiskModel. -/
def highRiskCountries : List String :=
  ["North Korea", "Iran", "Syria", "Cuba", "Crimea"]

/-- The location hardcoded at lines 184-189 of
ml_models/geolocation_model.py: the current session is always treated as
being in New York, regardless of the enrichment location present in the
input dictionary. -/
def hardcodedNYC : Location :=
  { country := "United States", city := "New York",
    latitude := 40.7128, longitude := -74.0060 }

/-- Countries of the last ten history items within 24 hours, nonempty ones
only (lines 243-249 of ml_models/geolocation_model.py). -/
def recentCountriesOf (ts : ℤ) (hist : List LoginHistoryItem) : List String :=
  ((lastTen hist).filter (fun i => ts - i.timestamp < 86400000)).filterMap
    (fun i => if i.location.country = "" then none else some i.location.country)

open Classical in
/-- GeolocationRiskModel.predict_risk (ml_models/geolocation_model.py, lines
174-263).  The enrichment location carried by the input is ignored by the
source: the current location is hardcodedNYC.  Note that a speed above 2000
assigns 95 outright (an assignment, not a floor, exactly as in line 236). -/
noncomputable def geoPredict (o : DBOutcome) (input : ModelInput)
    (hist : List LoginHistoryItem) : ℤ :=
  match o with
  | .notLoaded => 50
  | .err => 50
  | .ok base =>
    let location := hardcodedNYC
    let base1 := pyClamp base
    let base2 :=
      (lastLoginOf hist).elim base1 (fun last =>
        let speed := gmTravelSpeed location last.location input.timestamp last.timestamp
        let b :=
          if (((900 : ℝ) : WithTop ℝ)) < speed then
            (if (((2000 : ℝ) : WithTop ℝ)) < speed then 95 else max base1 85)
          else if (((500 : ℝ) : WithTop ℝ)) < speed then min 100 (base1 + 20)
          else base1
        if 3 < (recentCountriesOf input.timestamp hist).dedup.length then
          min 100 (b + 15)
        else b)
    if highRiskCountries.contains location.country then max base2 70 else base2

/-- GeoLocationAnalyzer.calculate_travel_speed (utils/geo_utils.py lines
46-56): float infinity on a nonpositive time difference, modelled as the top
element; otherwise distance over hours. -/
noncomputable def gaTravelSpeed (lat1 lon1 lat2 lon2 : ℝ) (timeDiffMs : ℤ) : WithTop ℝ :=
  if timeDiffMs ≤ 0 then ⊤
  else ((haversineR lat1 lon1 lat2 lon2 / ((timeDiffMs : ℝ) / 3600000) : ℝ) : WithTop ℝ)

/-- GeoLocationAnalyzer.is_impossible_travel (utils/geo_utils.py lines
58-63): speed strictly above 900 km per hour. -/
noncomputable def isImpossibleTravel (lat1 lon1 lat2 lon2 : ℝ) (timeDiffMs : ℤ) : Prop :=
  (((900 : ℝ) : WithTop ℝ)) < gaTravelSpeed lat1 lon1 lat2 lon2 timeDiffMs

/-- The travel-speed formula asserted by the specification: haversine
distance divided by max of the time difference and one millisecond, in km
per hour.  This definition follows the words of the spec, for comparison
with gaTravelSpeed, which is transcribed from the source. -/
noncomputable def specTravelSpeed (lat1 lon1 lat2 lon2 : ℝ) (timeDiffMs : ℤ) : ℝ :=
  haversineR lat1 lon1 lat2 lon2 / (((max timeDiffMs 1 : ℤ) : ℝ) / 3600000)

/-- validate_timestamp of api/validators.py lines 22-32: epoch milliseconds
between 2020-01-01 and 2030-01-01, both bounds inclusive. -/
def validTimestamp (ts : ℤ) : Bool :=
  decide (1577836800000 ≤ ts) && decide (ts ≤ 1893456000000)

/-- The prefix constants of get_location_from_ip. -/
def pfx192168 : List Char := "192.168".data

/-- Prefix 10. of get_location_from_ip. -/
def pfx10dot : List Char := "10.".data

/-- Prefix 8.8 of get_location_from_ip. -/
def pfx88 : List Char := "8.8".data

/-- get_location_from_ip of api/main.py lines 175-203: the mock enrichment
used in place of an external geolocation service. -/
def getLocationFromIP (ip : String) : Location :=
  if strStarts ip pfx192168 || strStarts ip pfx10dot then
    { country := "Private Network", city := "Local", latitude := 0, longitude := 0 }
  else if strStarts ip pfx88 then
    { country := "United States", city := "Mountain View",
      latitude := 37.4056, longitude := -122.0775 }
  else
    { country := "United States", city := "New York",
      latitude := 40.7128, longitude := -74.0060 }

/-- sanitize_input applied to the session dictionary: the regular-expression
scrubbing is abstracted as the string transformer san. -/
def sanitizeSession (san : String → String) (s : CurrentSession) : CurrentSession :=
  { s with ip := san s.ip, userAgent := san s.userAgent }

/-- sanitize_input applied to one history item. -/
def sanitizeItem (san : String → String) (i : LoginHistoryItem) : LoginHistoryItem :=
  { i with
    ip := san i.ip
    userAgent := san i.userAgent
    location := { i.location with
      country := san i.location.country
      city := san i.location.city } }

/-- The validation failures surfaced by the pipeline: the two pydantic
validators of api/models.py (history length, email form) and the two explicit
checks of analyze_risk (address parse, timestamp range). -/
inductive ValidationError where
  | historyTooLong
  | badEmail
  | badIP
  | badTimestamp
deriving DecidableEq

/-- The abstract model-inference outcomes of one request: one outcome per
detector, plus the user-agents parse result consumed by the agent rule
layer. -/
structure DetectorOutcomes where
  svm : SVMOutcome
  iforest : IFOutcome
  autoenc : AEOutcome
  uaParse : UAParseResult
  dbscan : DBOutcome

/-- The score-computing part of analyze_risk (api/main.py lines 254-400),
from validation to the response scores.  Rate limiting is modelled
separately (slidingRun and fixedRun below); meta fields, caching and audit
writes do not affect the scores and are not modelled.  isEmail abstracts the
pydantic EmailStr syntactic check.  A validation failure short-circuits
before any detector runs, so no scores are computed for rejected
requests. -/
noncomputable def analyze (san : String → String) (isEmail : String → Bool)
    (oc : DetectorOutcomes) (req : AnalyzeRequest) : Except ValidationError RiskScores :=
  if 1000 < req.loginHistory.length then .error .historyTooLong
  else if ! isEmail req.userId then .error .badEmail
  else if (parseIP req.currentSession.ip).isNone then .error .badIP
  else if ! validTimestamp req.currentSession.timestamp then .error .badTimestamp
  else
    let cs := sanitizeSession san req.currentSession
    let hist := req.loginHistory.map (sanitizeItem san)
    let loc := getLocationFromIP cs.ip
    let input : ModelInput :=
      { ip := cs.ip, userAgent := cs.userAgent, timestamp := cs.timestamp,
        touchSupport := cs.touchSupport, location := loc }
    let s0 := ipPredict oc.svm input hist
    let s1 := dtPredict oc.iforest input hist
    let s2 := uaPredict oc.autoenc oc.uaParse input hist
    let s3 := geoPredict oc.dbscan input hist
    let overall := pyTruncDiv (30 * s0 + 20 * s1 + 25 * s2 + 25 * s3) 100
    .ok { ip := pyClamp s0
          datetime := pyClamp s1
          userAgent := pyClamp s2
          geolocation := pyClamp s3
          overall := pyClamp overall }

/-- Load state of one detector, as read by the health endpoint: the is_loaded
flag set by load_model, and the presence of a model object (set by train). -/
structure DetectorLoadState where
  isLoadedFlag : Bool
  modelPresent : Bool
deriving DecidableEq

/-- The four detector load states of the models dictionary of api/main.py. -/
structure EngineLoadState where
  ip : DetectorLoadState
  datetime : DetectorLoadState
  useragent : DetectorLoadState
  geolocation : DetectorLoadState
deriving DecidableEq

/-- models_loaded of health_check (api/main.py lines 236-237): every detector
has is_loaded set or a model object present. -/
def modelsLoaded (e : EngineLoadState) : Bool :=
  (e.ip.isLoadedFlag || e.ip.modelPresent) &&
  (e.datetime.isLoadedFlag || e.datetime.modelPresent) &&
  (e.useragent.isLoadedFlag || e.useragent.modelPresent) &&
  (e.geolocation.isLoadedFlag || e.geolocation.modelPresent)

/-- The health response fields determined by the inputs of health_check. -/
structure HealthResponse where
  status : String
  modelsLoadedFlag : Bool
  redisConnected : Bool
  mongodbConnected : Bool
deriving DecidableEq

/-- The healthy status literal. -/
def healthyStr : String := "healthy"

/-- The degraded status literal. -/
def degradedStr : String := "degraded"

/-- health_check of api/main.py lines 216-246. -/
def healthCheck (e : EngineLoadState) (redisUp mongoUp : Bool) : HealthResponse :=
  { status := if modelsLoaded e then healthyStr else degradedStr,
    modelsLoadedFlag := modelsLoaded e,
    redisConnected := redisUp,
    mongodbConnected := mongoUp }

/-- One step of the in-process fallback rate limiter of check_rate_limit
(api/main.py lines 159-172): drop cache entries older than the window,
append the current time, and allow while the cache length is within the
limit.  Time points are drawn from any linearly ordered commutative ring,
instantiated at the rationals for real-valued clocks and at the integers for
concrete evaluation. -/
def slidingStep {α : Type} [LinearOrderedCommRing α] (limit : ℕ) (window : α)
    (cache : List α) (t : α) : List α × Bool :=
  let kept := cache.filter (fun u => t - u < window)
  let c2 := kept ++ [t]
  (c2, decide (c2.length ≤ limit))

/-- The fallback limiter run over a request sequence, returning the list of
allowed flags. -/
def slidingRun {α : Type} [LinearOrderedCommRing α] (limit : ℕ) (window : α) :
    List α → List α → List Bool
  | _, [] => []
  | cache, t :: r =>
    let s := slidingStep limit window cache t
    s.2 :: slidingRun limit window s.1 r

/-- The final cache contents of the fallback limiter after a request
sequence. -/
def slidingCache {α : Type} [LinearOrderedCommRing α] (window : α)
    (cache : List α) (ts : List α) : List α :=
  ts.foldl (fun c t => (c.filter (fun u => t - u < window)) ++ [t]) cache

/-- The shared Redis counter of check_rate_limit (api/main.py lines 151-158):
increment, set the expiry on the first increment, allow while the count is
within the limit.  The state is the window start and the count, absent when
the key has expired or was never set. -/
def fixedRun {α : Type} [LinearOrderedCommRing α] (limit : ℕ) (window : α) :
    Option (α × ℕ) → List α → List Bool
  | _, [] => []
  | none, t :: r => decide (1 ≤ limit) :: fixedRun limit window (some (t, 1)) r
  | some (t0, c), t :: r =>
    if t0 + window ≤ t then
      decide (1 ≤ limit) :: fixedRun limit window (some (t, 1)) r
    else
      decide (c + 1 ≤ limit) :: fixedRun limit window (some (t0, c + 1)) r

/-- RATE_LIMIT_REQUESTS of config/settings.py. -/
def rateLimitRequests : ℕ := 100

/-- RATE_LIMIT_PERIOD of config/settings.py, in seconds. -/
def rateLimitPeriod : ℤ := 60


/-- Identity string transformer: the true action of sanitize_input on every
concrete string used below (none matches the scrubbing patterns and none has
surrounding whitespace). -/
def idSan : String → String := fun s => s

/-- Email acceptor matching the pydantic EmailStr verdict on the concrete
userId values below, which are well-formed addresses. -/
def allEmails : String → Bool := fun _ => true

/-- A benign desktop agent string used by the concrete runs. -/
def cAgent : String := "Mozilla/5.0 (X11; Linux x86_64) Chrome/120.0.0.0 Safari/537.36"

/-- Concrete session for the fusion counterexample. -/
def cSession : CurrentSession :=
  { ip := "8.8.8.8", userAgent := cAgent, timestamp := 1700000000000,
    touchSupport := none }

/-- Concrete request for the fusion counterexample: empty history. -/
def cReq : AnalyzeRequest :=
  { currentSession := cSession, loginHistory := [], userId := "user@example.com" }

/-- Concrete user-agents parse result for cAgent. -/
def cParse : UAParseResult :=
  { isBot := false, browserFamily := "Chrome", majorVersion := some 120 }

/-- Concrete detector outcomes for the fusion counterexample: the network
detector reports an outlier whose banded risk value is 96 (decision value
-1.3 in the source arithmetic), the temporal base is 0, the agent base is 1,
the geographic base is 86. -/
def cOutcomes : DetectorOutcomes :=
  { svm := .ok false 96, iforest := .ok 0, autoenc := .ok 1,
    uaParse := cParse, dbscan := .ok 86 }

/-- Agent string containing HeadlessChrome, for the C4 counterexample. -/
def c4Agent : String :=
  "Mozilla/5.0 (X11; Linux x86_64) HeadlessChrome/120.0.0.0 Safari/537.36"

/-- Model input carrying c4Agent. -/
def c4Input : ModelInput :=
  { ip := "73.45.123.45", userAgent := c4Agent, timestamp := 1700000000000,
    touchSupport := none, location := hardcodedNYC }

/-- Agent string containing puppeteer, for the C4 witness. -/
def puppAgent : String := "puppeteer automation agent v1.2 test"

/-- Model input carrying puppAgent. -/
def puppInput : ModelInput :=
  { ip := "73.45.123.45", userAgent := puppAgent, timestamp := 1700000000000,
    touchSupport := none, location := hardcodedNYC }

/-- History item constructor for the temporal counterexample. -/
def c6Item (t : ℤ) : LoginHistoryItem :=
  { ip := "73.45.123.45", userAgent := cAgent, timestamp := t,
    location := hardcodedNYC, loginStatus := .success }

/-- Exactly three logins within the five-minute window before the
counterexample timestamp. -/
def c6Hist : List LoginHistoryItem :=
  [c6Item 1699999900000, c6Item 1699999800000, c6Item 1699999710000]

/-- Model input for the temporal counterexample (hour-of-day 22). -/
def c6Input : ModelInput :=
  { ip := "73.45.123.45", userAgent := cAgent, timestamp := 1700000000000,
    touchSupport := none, location := hardcodedNYC }

/-- Session whose address fails to parse, for the C7 witness. -/
def badSession : CurrentSession :=
  { ip := "not-an-address", userAgent := cAgent, timestamp := 1700000000000,
    touchSupport := none }

/-- Request whose address fails to parse, for the C7 witness. -/
def badReq : AnalyzeRequest :=
  { currentSession := badSession, loginHistory := [],
    userId := "user@example.com" }

/-- The S5 history item: one login 42 minutes before the current session,
located at New York (40.7128, -74.0060). -/
def s5Item : LoginHistoryItem :=
  { ip := "73.45.123.45", userAgent := cAgent, timestamp := 1699997480000,
    location := hardcodedNYC, loginStatus := .success }

/-- The S5 history list. -/
def s5Hist : List LoginHistoryItem := [s5Item]

/-- The S5 London enrichment location (51.5074, -0.1278). -/
def londonLoc : Location :=
  { country := "United Kingdom", city := "London", latitude := 51.5074,
    longitude := -0.1278 }

/-- The S5 model input: a UK address whose geolocation enrichment is London,
current timestamp 42 minutes after the last login. -/
def s5Input : ModelInput :=
  { ip := "81.2.69.142", userAgent := cAgent, timestamp := 1700000000000,
    touchSupport := none, location := londonLoc }

/-- The request time sequence separating the two rate limiters: one request
at time 0, ninety-nine at 59, two at 61 (integer-valued seconds, a valid
instance of real-valued clocks). -/
def c9Times : List ℤ := [0] ++ List.replicate 99 59 ++ [61, 61]

lemma pyClamp_bounds (x : ℤ) : 0 ≤ pyClamp x ∧ pyClamp x ≤ 100 := by
  unfold pyClamp; omega

lemma pyClamp_eq_self {x : ℤ} (h0 : 0 ≤ x) (h1 : x ≤ 100) : pyClamp x = x := by
  unfold pyClamp; omega

lemma ipPredict_bounds (o : SVMOutcome) (input : ModelInput)
    (hist : List LoginHistoryItem) :
    0 ≤ ipPredict o input hist ∧ ipPredict o input hist ≤ 100 := by
  cases o with
  | notLoaded => simp [ipPredict]
  | err => simp [ipPredict]
  | ok inl r =>
    simp only [ipPredict, knownBadIPs]
    cases h : parseIP input.ip <;>
      simp only [h, Option.elim_none, Option.elim_some, List.contains_nil,
        Bool.false_eq_true, if_false] <;>
      split_ifs <;> constructor <;> omega

lemma dtPredict_bounds (o : IFOutcome) (input : ModelInput)
    (hist : List LoginHistoryItem) :
    0 ≤ dtPredict o input hist ∧ dtPredict o input hist ≤ 100 := by
  cases o with
  | notLoaded => simp [dtPredict]
  | err => simp [dtPredict]
  | ok b =>
    simp only [dtPredict, pyClamp]
    split_ifs <;> constructor <;> omega

lemma uaPredict_bounds (o : AEOutcome) (p : UAParseResult) (input : ModelInput)
    (hist : List LoginHistoryItem) :
    0 ≤ uaPredict o p input hist ∧ uaPredict o p input hist ≤ 100 := by
  cases o with
  | notLoaded => simp [uaPredict]
  | err => simp [uaPredict]
  | ok base =>
    simp only [uaPredict]
    have h0 : 0 ≤ pyClamp base ∧ pyClamp base ≤ 100 := pyClamp_bounds base
    generalize pyClamp base = x0 at h0 ⊢
    have h1 : 0 ≤ (if p.isBot then max x0 80 else x0) ∧
        (if p.isBot then max x0 80 else x0) ≤ 100 := by split_ifs <;> omega
    generalize (if p.isBot then max x0 80 else x0) = x1 at h1 ⊢
    have h2 : 0 ≤ (if headlessPats.any
          (fun pat => isInfL pat (lowerL input.userAgent.data)) then max x1 85 else x1) ∧
        (if headlessPats.any
          (fun pat => isInfL pat (lowerL input.userAgent.data)) then max x1 85 else x1) ≤ 100 := by
      split_ifs <;> omega
    generalize (if headlessPats.any
      (fun pat => isInfL pat (lowerL input.userAgent.data)) then max x1 85 else x1) = x2 at h2 ⊢
    have h3 : 0 ≤ (if isInfL puppeteerPat (lowerL input.userAgent.data) ||
          isInfL headlessChromePat (lowerL input.userAgent.data) then max x2 90 else x2) ∧
        (if isInfL puppeteerPat (lowerL input.userAgent.data) ||
          isInfL headlessChromePat (lowerL input.userAgent.data) then max x2 90 else x2) ≤ 100 := by
      split_ifs <;> omega
    generalize (if isInfL puppeteerPat (lowerL input.userAgent.data) ||
      isInfL headlessChromePat (lowerL input.userAgent.data) then max x2 90 else x2) = x3 at h3 ⊢
    have h4 : 0 ≤ (p.majorVersion.elim x3 (fun mv =>
          (outdatedMinFor p.browserFamily).elim x3 (fun minv =>
            if mv < minv then min 100 (x3 + 20) else x3))) ∧
        (p.majorVersion.elim x3 (fun mv =>
          (outdatedMinFor p.browserFamily).elim x3 (fun minv =>
            if mv < minv then min 100 (x3 + 20) else x3))) ≤ 100 := by
      cases p.majorVersion <;> cases outdatedMinFor p.browserFamily <;>
        simp only [Option.elim_none, Option.elim_some] <;> (try split_ifs) <;> omega
    generalize (p.majorVersion.elim x3 (fun mv =>
      (outdatedMinFor p.browserFamily).elim x3 (fun minv =>
        if mv < minv then min 100 (x3 + 20) else x3))) = x4 at h4 ⊢
    have h5 : 0 ≤ (if (lowerL input.userAgent.data).length < 20 then max x4 75 else x4) ∧
        (if (lowerL input.userAgent.data).length < 20 then max x4 75 else x4) ≤ 100 := by
      split_ifs <;> omega
    generalize (if (lowerL input.userAgent.data).length < 20 then max x4 75 else x4) = x5 at h5 ⊢
    have h6 : 0 ≤ (if input.touchSupport = some true &&
          isInfL windowsNTPat (lowerL input.userAgent.data) &&
          ! isInfL mobilePat (lowerL input.userAgent.data) then min 100 (x5 + 15) else x5) ∧
        (if input.touchSupport = some true &&
          isInfL windowsNTPat (lowerL input.userAgent.data) &&
          ! isInfL mobilePat (lowerL input.userAgent.data) then min 100 (x5 + 15) else x5) ≤ 100 := by
      split_ifs <;> omega
    generalize (if input.touchSupport = some true &&
      isInfL windowsNTPat (lowerL input.userAgent.data) &&
      ! isInfL mobilePat (lowerL input.userAgent.data) then min 100 (x5 + 15) else x5) = x6 at h6 ⊢
    split_ifs <;> constructor <;> omega

lemma geoPredict_bounds (o : DBOutcome) (input : ModelInput)
    (hist : List LoginHistoryItem) :
    0 ≤ geoPredict o input hist ∧ geoPredict o input hist ≤ 100 := by
  cases o with
  | notLoaded => simp [geoPredict]
  | err => simp [geoPredict]
  | ok b =>
    simp only [geoPredict, pyClamp]
    cases hl : lastLoginOf hist <;>
      simp only [hl, Option.elim_none, Option.elim_some] <;>
      split_ifs <;> constructor <;> omega

/-- C5: every detector predict function is total with an integer result in
[0,100] on every session input and history; the not-loaded guard and the
internal except handler both yield exactly 50, so neither a missing model
nor an internal inference error fails the request.  Totality (no exception
escapes to the caller) holds because the embedded functions cover every
control path of the source predict functions, with the err outcome standing
for the catch-all except branch. -/
theorem detectors_total_bounded_neutral :
    ∀ (input : ModelInput) (hist : List LoginHistoryItem) (p : UAParseResult),
      (ipPredict .notLoaded input hist = 50 ∧ ipPredict .err input hist = 50 ∧
        ∀ o : SVMOutcome, 0 ≤ ipPredict o input hist ∧ ipPredict o input hist ≤ 100) ∧
      (dtPredict .notLoaded input hist = 50 ∧ dtPredict .err input hist = 50 ∧
        ∀ o : IFOutcome, 0 ≤ dtPredict o input hist ∧ dtPredict o input hist ≤ 100) ∧
      (uaPredict .notLoaded p input hist = 50 ∧ uaPredict .err p input hist = 50 ∧
        ∀ o : AEOutcome, 0 ≤ uaPredict o p input hist ∧ uaPredict o p input hist ≤ 100) ∧
      (geoPredict .notLoaded input hist = 50 ∧ geoPredict .err input hist = 50 ∧
        ∀ o : DBOutcome, 0 ≤ geoPredict o input hist ∧ geoPredict o input hist ≤ 100) := by
  intro input hist p
  exact ⟨⟨rfl, rfl, fun o => ipPredict_bounds o input hist⟩,
    ⟨rfl, rfl, fun o => dtPredict_bounds o input hist⟩,
    ⟨rfl, rfl, fun o => uaPredict_bounds o p input hist⟩,
    ⟨rfl, rfl, fun o => geoPredict_bounds o input hist⟩⟩

/-- C2: on every request the pipeline accepts, each of the five response
scores (ip, datetime, userAgent, geolocation, overall) is an integer (by
construction of the embedding) lying in [0,100]. -/
theorem analyze_scores_in_range :
    ∀ (san : String → String) (isEmail : String → Bool) (oc : DetectorOutcomes)
      (req : AnalyzeRequest) (r : RiskScores), analyze san isEmail oc req = .ok r →
      (0 ≤ r.ip ∧ r.ip ≤ 100) ∧ (0 ≤ r.datetime ∧ r.datetime ≤ 100) ∧
      (0 ≤ r.userAgent ∧ r.userAgent ≤ 100) ∧
      (0 ≤ r.geolocation ∧ r.geolocation ≤ 100) ∧
      (0 ≤ r.overall ∧ r.overall ≤ 100) := by
  intro san isEmail oc req r h
  unfold analyze at h
  split_ifs at h <;> try exact (Except.noConfusion h)
  injection h with h2
  subst h2
  exact ⟨pyClamp_bounds _, pyClamp_bounds _, pyClamp_bounds _, pyClamp_bounds _,
    pyClamp_bounds _⟩

/-- C2 witness at the concrete run of cReq with outcomes cOutcomes. -/
theorem analyze_scores_in_range_witness :
    ((0 : ℤ) ≤ 96 ∧ (96 : ℤ) ≤ 100) ∧ ((0 : ℤ) ≤ 0 ∧ (0 : ℤ) ≤ 100) ∧
    ((0 : ℤ) ≤ 1 ∧ (1 : ℤ) ≤ 100) ∧ ((0 : ℤ) ≤ 86 ∧ (86 : ℤ) ≤ 100) ∧
    ((0 : ℤ) ≤ 50 ∧ (50 : ℤ) ≤ 100) :=
  analyze_scores_in_range idSan allEmails cOutcomes cReq
    { ip := 96, datetime := 0, userAgent := 1, geolocation := 86, overall := 50 } rfl

/-- C1 (amended): on every accepted request the overall score equals the
weighted sum of the four factor scores of the same response, truncated
toward zero (Python int), then clamped to [0,100] - truncation, not
rounding to nearest.  The weights are 0.30, 0.20, 0.25, 0.25, and the
weighted sum is taken in exact arithmetic, the idealisation of the float
arithmetic of the source. -/
theorem analyze_overall_weighted_trunc :
    ∀ (san : String → String) (isEmail : String → Bool) (oc : DetectorOutcomes)
      (req : AnalyzeRequest) (r : RiskScores), analyze san isEmail oc req = .ok r →
      r.overall = pyClamp (pyTruncDiv
        (30 * r.ip + 20 * r.datetime + 25 * r.userAgent + 25 * r.geolocation) 100) := by
  intro san isEmail oc req r h
  unfold analyze at h
  split_ifs at h <;> try exact (Except.noConfusion h)
  injection h with h2
  subst h2
  simp only
  rw [pyClamp_eq_self (ipPredict_bounds _ _ _).1 (ipPredict_bounds _ _ _).2,
    pyClamp_eq_self (dtPredict_bounds _ _ _).1 (dtPredict_bounds _ _ _).2,
    pyClamp_eq_self (uaPredict_bounds _ _ _ _).1 (uaPredict_bounds _ _ _ _).2,
    pyClamp_eq_self (geoPredict_bounds _ _ _).1 (geoPredict_bounds _ _ _).2]

/-- C1 (amended) witness at the concrete run: 50 is the clamped truncation
of the weighted sum of the factor scores (96, 0, 1, 86). -/
theorem analyze_overall_weighted_trunc_witness :
    (50 : ℤ) = pyClamp (pyTruncDiv (30 * 96 + 20 * 0 + 25 * 1 + 25 * 86) 100) :=
  analyze_overall_weighted_trunc idSan allEmails cOutcomes cReq
    { ip := 96, datetime := 0, userAgent := 1, geolocation := 86, overall := 50 } rfl

/-- C1 counterexample: the concrete run below produces the factor scores
(96, 0, 1, 86), whose weighted sum is 50.55.  The source computes
int(50.55) = 50 for the response overall, whereas the claim as stated
demands round(50.55) = 51; truncation and rounding disagree, so the claim
is false on this valid request. -/
theorem overall_round_counterexample :
    analyze idSan allEmails cOutcomes cReq =
      .ok { ip := 96, datetime := 0, userAgent := 1, geolocation := 86, overall := 50 } ∧
    round ((30 * (96 : ℚ) + 20 * 0 + 25 * 1 + 25 * 86) / 100) = 51 ∧ (50 : ℤ) ≠ 51 := by
  refine ⟨rfl, ?_, by decide⟩
  rw [round_eq]
  norm_num

lemma isPrefL_iff (n h : List Char) : isPrefL n h = true ↔ n <+: h := by
  induction n generalizing h with
  | nil => simp [isPrefL]
  | cons a as ih =>
    cases h with
    | nil => simp [isPrefL]
    | cons b bs =>
      simp [isPrefL, List.cons_prefix_cons, ih]

lemma isInfL_iff (n h : List Char) : isInfL n h = true ↔ n <:+: h := by
  induction h with
  | nil =>
    cases n with
    | nil => simp [isInfL, isPrefL]
    | cons a as => simp [isInfL, isPrefL]
  | cons c t ih =>
    simp only [isInfL, Bool.or_eq_true, isPrefL_iff, ih, List.infix_cons_iff]

lemma ua_ge85_of_headless (base : ℤ) (p : UAParseResult) (input : ModelInput)
    (hist : List LoginHistoryItem)
    (h : headlessPats.any (fun pat => isInfL pat (lowerL input.userAgent.data)) = true) :
    85 ≤ uaPredict (.ok base) p input hist := by
  simp only [uaPredict, h, if_true]
  have h0 : 0 ≤ pyClamp base ∧ pyClamp base ≤ 100 := pyClamp_bounds base
  generalize pyClamp base = x0 at h0 ⊢
  have h1 : 0 ≤ (if p.isBot then max x0 80 else x0) ∧
      (if p.isBot then max x0 80 else x0) ≤ 100 := by split_ifs <;> omega
  generalize (if p.isBot then max x0 80 else x0) = x1 at h1 ⊢
  have h2 : 0 ≤ max x1 85 ∧ max x1 85 ≤ 100 ∧ 85 ≤ max x1 85 := by omega
  generalize max x1 85 = x2 at h2 ⊢
  have h3 : 0 ≤ (if isInfL puppeteerPat (lowerL input.userAgent.data) ||
        isInfL headlessChromePat (lowerL input.userAgent.data) then max x2 90 else x2) ∧
      (if isInfL puppeteerPat (lowerL input.userAgent.data) ||
        isInfL headlessChromePat (lowerL input.userAgent.data) then max x2 90 else x2) ≤ 100 ∧
      85 ≤ (if isInfL puppeteerPat (lowerL input.userAgent.data) ||
        isInfL headlessChromePat (lowerL input.userAgent.data) then max x2 90 else x2) := by
    split_ifs <;> omega
  generalize (if isInfL puppeteerPat (lowerL input.userAgent.data) ||
    isInfL headlessChromePat (lowerL input.userAgent.data) then max x2 90 else x2) = x3 at h3 ⊢
  have h4 : 0 ≤ (p.majorVersion.elim x3 (fun mv =>
        (outdatedMinFor p.browserFamily).elim x3 (fun minv =>
          if mv < minv then min 100 (x3 + 20) else x3))) ∧
      (p.majorVersion.elim x3 (fun mv =>
        (outdatedMinFor p.browserFamily).elim x3 (fun minv =>
          if mv < minv then min 100 (x3 + 20) else x3))) ≤ 100 ∧
      85 ≤ (p.majorVersion.elim x3 (fun mv =>
        (outdatedMinFor p.browserFamily).elim x3 (fun minv =>
          if mv < minv then min 100 (x3 + 20) else x3))) := by
    cases p.majorVersion <;> cases outdatedMinFor p.browserFamily <;>
      simp only [Option.elim_none, Option.elim_some] <;> (try split_ifs) <;> omega
  generalize (p.majorVersion.elim x3 (fun mv =>
    (outdatedMinFor p.browserFamily).elim x3 (fun minv =>
      if mv < minv then min 100 (x3 + 20) else x3))) = x4 at h4 ⊢
  have h5 : 0 ≤ (if (lowerL input.userAgent.data).length < 20 then max x4 75 else x4) ∧
      (if (lowerL input.userAgent.data).length < 20 then max x4 75 else x4) ≤ 100 ∧
      85 ≤ (if (lowerL input.userAgent.data).length < 20 then max x4 75 else x4) := by
    split_ifs <;> omega
  generalize (if (lowerL input.userAgent.data).length < 20 then max x4 75 else x4) = x5 at h5 ⊢
  have h6 : 0 ≤ (if input.touchSupport = some true &&
        isInfL windowsNTPat (lowerL input.userAgent.data) &&
        ! isInfL mobilePat (lowerL input.userAgent.data) then min 100 (x5 + 15) else x5) ∧
      (if input.touchSupport = some true &&
        isInfL windowsNTPat (lowerL input.userAgent.data) &&
        ! isInfL mobilePat (lowerL input.userAgent.data) then min 100 (x5 + 15) else x5) ≤ 100 ∧
      85 ≤ (if input.touchSupport = some true &&
        isInfL windowsNTPat (lowerL input.userAgent.data) &&
        ! isInfL mobilePat (lowerL input.userAgent.data) then min 100 (x5 + 15) else x5) := by
    split_ifs <;> omega
  generalize (if input.touchSupport = some true &&
    isInfL windowsNTPat (lowerL input.userAgent.data) &&
    ! isInfL mobilePat (lowerL input.userAgent.data) then min 100 (x5 + 15) else x5) = x6 at h6 ⊢
  split_ifs <;> omega

lemma ua_ge90_of_puppeteer (base : ℤ) (p : UAParseResult) (input : ModelInput)
    (hist : List LoginHistoryItem)
    (h : (isInfL puppeteerPat (lowerL input.userAgent.data) ||
      isInfL headlessChromePat (lowerL input.userAgent.data)) = true) :
    90 ≤ uaPredict (.ok base) p input hist := by
  simp only [uaPredict, h, if_true]
  have h0 : 0 ≤ pyClamp base ∧ pyClamp base ≤ 100 := pyClamp_bounds base
  generalize pyClamp base = x0 at h0 ⊢
  have h1 : 0 ≤ (if p.isBot then max x0 80 else x0) ∧
      (if p.isBot then max x0 80 else x0) ≤ 100 := by split_ifs <;> omega
  generalize (if p.isBot then max x0 80 else x0) = x1 at h1 ⊢
  have h2 : 0 ≤ (if headlessPats.any
        (fun pat => isInfL pat (lowerL input.userAgent.data)) then max x1 85 else x1) ∧
      (if headlessPats.any
        (fun pat => isInfL pat (lowerL input.userAgent.data)) then max x1 85 else x1) ≤ 100 := by
    split_ifs <;> omega
  generalize (if headlessPats.any
    (fun pat => isInfL pat (lowerL input.userAgent.data)) then max x1 85 else x1) = x2 at h2 ⊢
  have h3 : 0 ≤ max x2 90 ∧ max x2 90 ≤ 100 ∧ 90 ≤ max x2 90 := by omega
  generalize max x2 90 = x3 at h3 ⊢
  have h4 : 0 ≤ (p.majorVersion.elim x3 (fun mv =>
        (outdatedMinFor p.browserFamily).elim x3 (fun minv =>
          if mv < minv then min 100 (x3 + 20) else x3))) ∧
      (p.majorVersion.elim x3 (fun mv =>
        (outdatedMinFor p.browserFamily).elim x3 (fun minv =>
          if mv < minv then min 100 (x3 + 20) else x3))) ≤ 100 ∧
      90 ≤ (p.majorVersion.elim x3 (fun mv =>
        (outdatedMinFor p.browserFamily).elim x3 (fun minv =>
          if mv < minv then min 100 (x3 + 20) else x3))) := by
    cases p.majorVersion <;> cases outdatedMinFor p.browserFamily <;>
      simp only [Option.elim_none, Option.elim_some] <;> (try split_ifs) <;> omega
  generalize (p.majorVersion.elim x3 (fun mv =>
    (outdatedMinFor p.browserFamily).elim x3 (fun minv =>
      if mv < minv then min 100 (x3 + 20) else x3))) = x4 at h4 ⊢
  have h5 : 0 ≤ (if (lowerL input.userAgent.data).length < 20 then max x4 75 else x4) ∧
      (if (lowerL input.userAgent.data).length < 20 then max x4 75 else x4) ≤ 100 ∧
      90 ≤ (if (lowerL input.userAgent.data).length < 20 then max x4 75 else x4) := by
    split_ifs <;> omega
  generalize (if (lowerL input.userAgent.data).length < 20 then max x4 75 else x4) = x5 at h5 ⊢
  have h6 : 0 ≤ (if input.touchSupport = some true &&
        isInfL windowsNTPat (lowerL input.userAgent.data) &&
        ! isInfL mobilePat (lowerL input.userAgent.data) then min 100 (x5 + 15) else x5) ∧
      (if input.touchSupport = some true &&
        isInfL windowsNTPat (lowerL input.userAgent.data) &&
        ! isInfL mobilePat (lowerL input.userAgent.data) then min 100 (x5 + 15) else x5) ≤ 100 ∧
      90 ≤ (if input.touchSupport = some true &&
        isInfL windowsNTPat (lowerL input.userAgent.data) &&
        ! isInfL mobilePat (lowerL input.userAgent.data) then min 100 (x5 + 15) else x5) := by
    split_ifs <;> omega
  generalize (if input.touchSupport = some true &&
    isInfL windowsNTPat (lowerL input.userAgent.data) &&
    ! isInfL mobilePat (lowerL input.userAgent.data) then min 100 (x5 + 15) else x5) = x6 at h6 ⊢
  split_ifs <;> omega

/-- C4 (amended): when the agent detector runs its loaded-model path, an
agent string containing headless, phantom or selenium scores at least 85,
one containing puppeteer scores at least 90, and one containing
HeadlessChrome scores at least 85 only: the 90-floor test of the source
compares the mixed-case literal HeadlessChrome against the lowercased agent
string and can never fire, so of the two claimed 90-floor triggers only
puppeteer is effective, and HeadlessChrome receives just the 85 floor
through its headless substring. -/
theorem useragent_rule_floors :
    ∀ (base : ℤ) (p : UAParseResult) (input : ModelInput) (hist : List LoginHistoryItem),
      ((∃ pat ∈ headlessPats, strContains input.userAgent pat = true) →
        85 ≤ uaPredict (.ok base) p input hist) ∧
      (strContains input.userAgent puppeteerPat = true →
        90 ≤ uaPredict (.ok base) p input hist) ∧
      (strContains input.userAgent headlessChromePat = true →
        85 ≤ uaPredict (.ok base) p input hist) := by
  intro base p input hist
  refine ⟨?_, ?_, ?_⟩
  · rintro ⟨pat, hmem, hc⟩
    apply ua_ge85_of_headless
    rw [List.any_eq_true]
    refine ⟨pat, hmem, ?_⟩
    rw [isInfL_iff]
    have hlow : lowerL pat = pat := by
      simp only [headlessPats, List.mem_cons, List.not_mem_nil, or_false] at hmem
      rcases hmem with rfl | rfl | rfl <;> decide
    calc pat = lowerL pat := hlow.symm
      _ <:+: lowerL input.userAgent.data :=
        ((isInfL_iff _ _).1 hc).map Char.toLower
  · intro hc
    apply ua_ge90_of_puppeteer
    rw [Bool.or_eq_true]
    left
    rw [isInfL_iff]
    have hlow : lowerL puppeteerPat = puppeteerPat := by decide
    calc puppeteerPat = lowerL puppeteerPat := hlow.symm
      _ <:+: lowerL input.userAgent.data :=
        ((isInfL_iff _ _).1 hc).map Char.toLower
  · intro hc
    apply ua_ge85_of_headless
    rw [List.any_eq_true]
    refine ⟨"headless".data, by simp [headlessPats], ?_⟩
    rw [isInfL_iff]
    have h1 : ("headless".data : List Char) <:+: lowerL headlessChromePat := by decide
    exact h1.trans (((isInfL_iff _ _).1 hc).map Char.toLower)

/-- C4 counterexample: a concrete agent containing HeadlessChrome, scored on
the loaded path with model base 0, receives exactly 85, refuting the claimed
90 floor for agents containing HeadlessChrome. -/
theorem useragent_headlesschrome_counterexample :
    strContains c4Agent headlessChromePat = true ∧
    uaPredict (.ok 0) cParse c4Input [] = 85 ∧ ¬ (90 : ℤ) ≤ 85 := by
  refine ⟨by decide, by decide, by decide⟩

/-- C4 (amended) witness: concrete agents containing HeadlessChrome and
puppeteer, scored on the loaded path, reach the 85 and 90 floors. -/
theorem useragent_rule_floors_witness :
    85 ≤ uaPredict (.ok 0) cParse c4Input [] ∧
    90 ≤ uaPredict (.ok 0) cParse puppInput [] :=
  ⟨(useragent_rule_floors 0 cParse c4Input []).2.2 (by decide),
   (useragent_rule_floors 0 cParse puppInput []).2.1 (by decide)⟩

/-- C6 (amended): the temporal rule layer equals the clamped model base plus
the sum of the fired raises, capped at 100: +20 when the hour of the
timestamp lies in [2,5]; +30 when more than five history logins fall within
the preceding five minutes; +15 when more than three and at most five do -
the source condition is recent_count > 3 taken after the > 5 branch, so a
window holding exactly three logins raises nothing, against the claimed
three-to-five window; +20 when more than three of the last ten history items
are failures; +25 when the history holds more than five items and the five
gaps of the timestamp-sorted last six are all equal. -/
theorem datetime_rule_raises :
    ∀ (b : ℤ) (input : ModelInput) (hist : List LoginHistoryItem),
      dtPredict (.ok b) input hist =
        min 100 (pyClamp b +
          (if 2 ≤ pyHour input.timestamp ∧ pyHour input.timestamp ≤ 5 then 20 else 0) +
          (if 5 < countRecent5Min input.timestamp hist then 30
           else if 3 < countRecent5Min input.timestamp hist then 15 else 0) +
          (if 3 < lastTenFailures hist then 20 else 0) +
          (if botCadence hist then 25 else 0)) := by
  intro b input hist
  cases hist with
  | nil =>
    simp only [dtPredict, pyClamp, countRecent5Min, lastTenFailures, lastTen,
      botCadence, List.countP_nil, List.isEmpty_nil, if_true, List.length_nil,
      List.drop_nil]
    split_ifs <;> omega
  | cons x t =>
    simp only [dtPredict, pyClamp, List.isEmpty_cons, Bool.false_eq_true, if_false]
    split_ifs <;> omega

/-- C6 counterexample: a history with exactly three logins inside the
five-minute window.  The claim as stated predicts a +15 raise (30 from the
clamped base 15); the source adds nothing and returns 15. -/
theorem datetime_three_in_window_counterexample :
    countRecent5Min 1700000000000 c6Hist = 3 ∧
    dtPredict (.ok 15) c6Input c6Hist = 15 ∧ (15 : ℤ) ≠ 15 + 15 := by
  refine ⟨by decide, by decide, by decide⟩

/-- C7: the pipeline rejects a request with a validation error, before any
score is computed (the validation branches short-circuit ahead of every
detector call), exactly when the session address fails to parse as
IPv4/IPv6, or the timestamp lies outside 1577836800000..1893456000000
milliseconds (both bounds inclusive), or the login history exceeds 1000
items, or the userId fails the syntactic email check.  Requests are the
typed wire model of api/models.py, in which loginStatus is already the
success/failure enumeration; the email predicate abstracts pydantic
EmailStr. -/
theorem validation_iff :
    ∀ (san : String → String) (isEmail : String → Bool) (oc : DetectorOutcomes)
      (req : AnalyzeRequest),
      (∃ e, analyze san isEmail oc req = .error e) ↔
        (parseIP req.currentSession.ip = none ∨
         ¬ (1577836800000 ≤ req.currentSession.timestamp ∧
            req.currentSession.timestamp ≤ 1893456000000) ∨
         1000 < req.loginHistory.length ∨
         isEmail req.userId = false) := by
  intro san isEmail oc req
  unfold analyze
  split_ifs with h1 h2 h3 h4
  · exact iff_of_true ⟨.historyTooLong, rfl⟩ (Or.inr (Or.inr (Or.inl h1)))
  · refine iff_of_true ⟨.badEmail, rfl⟩ (Or.inr (Or.inr (Or.inr ?_)))
    simpa using h2
  · refine iff_of_true ⟨.badIP, rfl⟩ (Or.inl ?_)
    simpa [Option.isNone_iff_eq_none] using h3
  · refine iff_of_true ⟨.badTimestamp, rfl⟩ (Or.inr (Or.inl ?_))
    simp only [validTimestamp, Bool.not_eq_true', Bool.and_eq_false_iff,
      decide_eq_false_iff_not, not_le] at h4
    omega
  · refine iff_of_false ?_ ?_
    · rintro ⟨e, he⟩
      simp at he
    · push_neg
      refine ⟨?_, ?_, ?_, ?_⟩
      · simpa [Option.isNone_iff_eq_none] using h3
      · have h4b : validTimestamp req.currentSession.timestamp = true := by
          simpa using h4
        simp [validTimestamp] at h4b
        exact h4b
      · omega
      · simpa using h2

/-- C7 witness: a request whose address does not parse is rejected with a
validation error. -/
theorem validation_iff_witness :
    ∃ e, analyze idSan allEmails cOutcomes badReq = .error e :=
  (validation_iff idSan allEmails cOutcomes badReq).mpr (Or.inl rfl)

lemma atan2R_zero_one : atan2R 0 1 = 0 := by
  unfold atan2R
  rw [if_pos (by norm_num : (0:ℝ) < 1)]
  norm_num [Real.arctan_zero]

lemma haversineR_self (lat lon : ℝ) : haversineR lat lon lat lon = 0 := by
  simp only [haversineR, sub_self, zero_div, Real.sin_zero, ne_eq,
    OfNat.ofNat_ne_zero, not_false_eq_true, zero_pow, mul_zero, add_zero,
    zero_add, Real.sqrt_zero, sub_zero, Real.sqrt_one, atan2R_zero_one]

/-- C8 (amended): the travel-speed helper of utils/geo_utils.py returns the
haversine distance (sphere of radius 6371 km) divided by the elapsed hours
when the millisecond difference is positive, and positive infinity when the
difference is zero or negative - not the max(dt, 1 ms) denominator stated by
the claim - and the impossible-travel predicate holds exactly when the
difference is nonpositive or the distance exceeds 900 km/h times the
elapsed hours. -/
theorem travel_speed_characterisation :
    ∀ (lat1 lon1 lat2 lon2 : ℝ) (dt : ℤ),
      (dt ≤ 0 → gaTravelSpeed lat1 lon1 lat2 lon2 dt = ⊤) ∧
      (0 < dt → gaTravelSpeed lat1 lon1 lat2 lon2 dt =
        ((haversineR lat1 lon1 lat2 lon2 / ((dt : ℝ) / 3600000) : ℝ) : WithTop ℝ)) ∧
      (isImpossibleTravel lat1 lon1 lat2 lon2 dt ↔
        (dt ≤ 0 ∨ 900 * ((dt : ℝ) / 3600000) < haversineR lat1 lon1 lat2 lon2)) := by
  intro lat1 lon1 lat2 lon2 dt
  refine ⟨?_, ?_, ?_⟩
  · intro h
    unfold gaTravelSpeed
    rw [if_pos h]
  · intro h
    unfold gaTravelSpeed
    rw [if_neg (by omega)]
  · unfold isImpossibleTravel gaTravelSpeed
    by_cases hdt : dt ≤ 0
    · rw [if_pos hdt]
      exact iff_of_true (WithTop.coe_lt_top 900) (Or.inl hdt)
    · have hpos : (0 : ℝ) < (dt : ℝ) / 3600000 := by
        have hdt2 : (0 : ℝ) < (dt : ℝ) := by exact_mod_cast (by omega : 0 < dt)
        positivity
      rw [if_neg hdt, WithTop.coe_lt_coe, lt_div_iff₀ hpos, or_iff_right hdt]

/-- C8 (amended) witness: at a nonpositive time difference the helper
returns infinity and the predicate holds. -/
theorem travel_speed_characterisation_witness :
    gaTravelSpeed 0 0 0 0 (-5) = ⊤ ∧ isImpossibleTravel 0 0 0 0 (-5) :=
  ⟨(travel_speed_characterisation 0 0 0 0 (-5)).1 (by norm_num),
   ((travel_speed_characterisation 0 0 0 0 (-5)).2.2).mpr (Or.inl (by norm_num))⟩

/-- C8 counterexample: at coincident endpoints and a zero time difference,
the formula asserted by the claim gives speed 0, which does not exceed 900,
yet the source predicate holds because the helper returns infinity rather
than distance over max(dt, 1 ms). -/
theorem travel_speed_spec_counterexample :
    isImpossibleTravel 0 0 0 0 0 ∧ specTravelSpeed 0 0 0 0 0 = 0 ∧
    ¬ ((0 : ℝ) > 900) := by
  refine ⟨?_, ?_, by norm_num⟩
  · unfold isImpossibleTravel gaTravelSpeed
    rw [if_pos le_rfl]
    exact WithTop.coe_lt_top 900
  · unfold specTravelSpeed
    rw [haversineR_self, zero_div]

lemma gmTravelSpeed_self (loc1 loc2 : Location) (t1 t2 : ℤ)
    (hlat : loc1.latitude = loc2.latitude) (hlon : loc1.longitude = loc2.longitude)
    (hne : t2 - t1 ≠ 0) : gmTravelSpeed loc1 loc2 t1 t2 = ((0 : ℝ) : WithTop ℝ) := by
  unfold gmTravelSpeed
  rw [if_neg hne, hlat, hlon, haversineR_self, zero_div]

/-- C3 failing input (scenario S5): the last login was 42 minutes ago at New
York and the current address geolocates to London, so the claim (and the
repository test test_impossible_travel) expects a geolocation score of at
least 85.  The source hardcodes the current location to New York inside
predict_risk and ignores the enrichment carried by its input, so the
computed travel speed is New York to New York, that is 0, and no physics
floor fires: with no trained model the detector returns the flat default
50, and on the loaded path with model base 0 it returns 0 - both below
85. -/
theorem geolocation_s5_failing :
    geoPredict .notLoaded s5Input s5Hist = 50 ∧
    geoPredict (.ok 0) s5Input s5Hist = 0 ∧
    ¬ (85 : ℤ) ≤ 50 ∧ ¬ (85 : ℤ) ≤ 0 := by
  refine ⟨rfl, ?_, by decide, by decide⟩
  have hll : lastLoginOf s5Hist = some s5Item := rfl
  simp only [geoPredict, hll, Option.elim_some]
  rw [gmTravelSpeed_self hardcodedNYC s5Item.location s5Input.timestamp
    s5Item.timestamp rfl rfl (by decide)]
  have h900 : ¬ (((900 : ℝ) : WithTop ℝ) < ((0 : ℝ) : WithTop ℝ)) := by
    rw [WithTop.coe_lt_coe]; norm_num
  have h500 : ¬ (((500 : ℝ) : WithTop ℝ) < ((0 : ℝ) : WithTop ℝ)) := by
    rw [WithTop.coe_lt_coe]; norm_num
  have hhop : ¬ 3 < (recentCountriesOf s5Input.timestamp s5Hist).dedup.length := by
    decide
  have hrisk : ¬ highRiskCountries.contains hardcodedNYC.country = true := by
    decide
  rw [if_neg hrisk, if_neg h900, if_neg h500, if_neg hhop]
  decide

lemma slidingCache_append {α : Type} [LinearOrderedCommRing α] (w : α)
    (c : List α) (xs : List α) (s : α) :
    slidingCache w c (xs ++ [s]) =
      (slidingCache w c xs).filter (fun u => s - u < w) ++ [s] := by
  simp [slidingCache, List.foldl_append]

lemma slidingRun_append {α : Type} [LinearOrderedCommRing α] (limit : ℕ) (w : α)
    (c : List α) (xs : List α) (t : α) :
    slidingRun limit w c (xs ++ [t]) = slidingRun limit w c xs ++
      [decide (((slidingCache w c xs).filter (fun u => t - u < w)).length + 1 ≤ limit)] := by
  induction xs generalizing c with
  | nil => simp [slidingRun, slidingStep, slidingCache]
  | cons x xs ih =>
    simp only [List.cons_append, slidingRun, slidingStep, List.append_eq]
    rw [ih]
    rfl

lemma slidingCache_filter_sorted {α : Type} [LinearOrderedCommRing α] (w : α) :
    ∀ (past : List α) (t : α), past.Pairwise (· ≤ ·) → (∀ u ∈ past, u ≤ t) →
      (slidingCache w [] past).filter (fun u => t - u < w) =
        past.filter (fun u => t - u < w) := by
  intro past
  induction past using List.reverseRecOn with
  | nil => intro t _ _; rfl
  | append_singleton past2 s ih =>
    intro t hp hle
    have hps : past2.Pairwise (· ≤ ·) := (List.pairwise_append.mp hp).1
    have hst : s ≤ t := hle s (by simp)
    have hlt : ∀ u ∈ past2, u ≤ t := fun u hu => hle u (by simp [hu])
    rw [slidingCache_append, List.filter_append, List.filter_filter]
    have hcong : ∀ a : α,
        (decide (t - a < w) && decide (s - a < w)) = decide (t - a < w) := by
      intro a
      by_cases h : t - a < w
      · have h2 : s - a < w := lt_of_le_of_lt (by linarith) h
        simp [h, h2]
      · simp [h]
    rw [List.filter_congr (fun a _ => hcong a), ih t hps hlt, List.filter_append]

/-- C9 (amended): the in-process fallback of check_rate_limit enforces a
sliding 60-second window: each request is rejected exactly when more than
100 requests, itself included, arrived strictly within the preceding 60
seconds.  This is not identical to the shared counter, which is a fixed
window anchored at the first request after each expiry; the concrete
sequence of rate_limit_counters_differ separates the two.  Stated for every
monotone sequence of rational request times. -/
theorem fallback_sliding_window :
    ∀ (past : List ℚ) (t : ℚ), (past ++ [t]).Pairwise (· ≤ ·) →
      slidingRun rateLimitRequests (60 : ℚ) [] (past ++ [t]) =
        slidingRun rateLimitRequests (60 : ℚ) [] past ++
          [decide (past.countP (fun u => decide (t - u < 60)) + 1 ≤ rateLimitRequests)] := by
  intro past t hp
  rw [slidingRun_append]
  have hps : past.Pairwise (· ≤ ·) := (List.pairwise_append.mp hp).1
  have hle : ∀ u ∈ past, u ≤ t := by
    intro u hu
    exact (List.pairwise_append.mp hp).2.2 u hu t (by simp)
  rw [slidingCache_filter_sorted 60 past t hps hle, List.countP_eq_length_filter]

/-- C9 (amended) witness: one prior request at time 0 and a request at time
30 - the new request is allowed because only two requests fall within the
window. -/
theorem fallback_sliding_window_witness :
    slidingRun rateLimitRequests (60 : ℚ) [] ([(0 : ℚ)] ++ [(30 : ℚ)]) =
      slidingRun rateLimitRequests (60 : ℚ) [] [(0 : ℚ)] ++
        [decide ([(0 : ℚ)].countP (fun u => decide ((30 : ℚ) - u < 60)) + 1 ≤
          rateLimitRequests)] :=
  fallback_sliding_window [0] 30 (by norm_num)

set_option maxRecDepth 20000 in
/-- C9 counterexample: on the concrete monotone time sequence c9Times (one
request at 0, ninety-nine at 59, two at 61) the final request is allowed by
the shared fixed-window counter, whose key expired at 60, but rejected by
the in-process fallback, whose sliding window still holds the ninety-nine
requests from time 59 - the two limiters are not identical. -/
theorem rate_limit_counters_differ :
    (fixedRun rateLimitRequests (60 : ℤ) none c9Times).getLast? = some true ∧
    (slidingRun rateLimitRequests (60 : ℤ) [] c9Times).getLast? = some false := by
  constructor
  · decide
  · decide

/-- C10: the health endpoint reports healthy exactly when each of the four
detectors has its is_loaded flag set or a model object present; the status
is independent of the Redis and MongoDB connectivity flags, which are
reported only in their own response fields; and no status value other than
healthy or degraded is ever produced. -/
theorem health_status_characterisation :
    ∀ (e : EngineLoadState) (r m r2 m2 : Bool),
      ((healthCheck e r m).status = healthyStr ↔
        ((e.ip.isLoadedFlag || e.ip.modelPresent) = true ∧
         (e.datetime.isLoadedFlag || e.datetime.modelPresent) = true ∧
         (e.useragent.isLoadedFlag || e.useragent.modelPresent) = true ∧
         (e.geolocation.isLoadedFlag || e.geolocation.modelPresent) = true)) ∧
      (healthCheck e r m).status = (healthCheck e r2 m2).status ∧
      ((healthCheck e r m).status = healthyStr ∨
        (healthCheck e r m).status = degradedStr) := by
  intro e r m r2 m2
  refine ⟨?_, rfl, ?_⟩
  · unfold healthCheck modelsLoaded
    split_ifs with h
    · simp only [Bool.and_eq_true] at h
      exact iff_of_true rfl (by tauto)
    · simp only [Bool.and_eq_true] at h
      refine iff_of_false ?_ (by tauto)
      intro hcontra
      have hsd : degradedStr = healthyStr := hcontra
      exact absurd hsd (by decide)
  · unfold healthCheck
    split_ifs <;> simp
